import Mathlib

/-!
Verification of the CopilotKit run loop / event protocol core
(`copilotkit/runloop.py`, `copilotkit/protocol.py`) against its
natural-language specification.

The Python code is shallowly embedded: dictionaries (`Dict[str, Any]`)
become insertion-ordered association lists, JSON values become the
inductive `JVal`, `json.dumps` becomes `jdump` (Python default
separators and `ensure_ascii=True` escaping), the event `TypedDict`s
become the inductive `RuntimeEvent`, and the mutating functions
`predict_state` / `handle_runtime_event` become pure functions that
return the updated execution record alongside their result.
-/

namespace CopilotKit

/-- JSON values, the model of Python objects that flow through state
dictionaries and the serializer.  Objects are insertion-ordered
association lists, mirroring Python `dict` semantics.  Numeric values
are modelled as integers (no claim involves floats). -/
inductive JVal where
  | null : JVal
  | bool (b : Bool) : JVal
  | num (n : Int) : JVal
  | str (s : String) : JVal
  | arr (elems : List JVal) : JVal
  | obj (entries : List (String × JVal)) : JVal

/-- Is this JSON value `null`?  Models Python `x is None` on decoded
JSON values (where JSON `null` decodes to `None`). -/
def JVal.isNull : JVal → Bool
  | .null => true
  | _ => false

/-- Python `d.get(k)` on an insertion-ordered dict. -/
def dictGet {α : Type} (d : List (String × α)) (k : String) : Option α :=
  match d.find? (fun kv => kv.1 == k) with
  | some kv => some kv.2
  | none => none

/-- Python `d[k] = v`: update the existing entry in place, else append. -/
def dictSet {α : Type} : List (String × α) → String → α → List (String × α)
  | [], k, v => [(k, v)]
  | (k', v') :: rest, k, v =>
      if k' == k then (k, v) :: rest else (k', v') :: dictSet rest k v

/-- Python `{**a, **b}`: keys of `a` in order (values overridden by `b`
where present), then keys of `b` not in `a`, in `b`'s order. -/
def dictMerge {α : Type} (a b : List (String × α)) : List (String × α) :=
  b.foldl (fun acc kv => dictSet acc kv.1 kv.2) a

/-- A lowercase hexadecimal digit character. -/
def hexDigitChar (m : Nat) : Char :=
  if m < 10 then Char.ofNat (48 + m) else Char.ofNat (87 + m)

/-- Render a natural number as exactly four lowercase hex digits,
as in Python's `\uXXXX` escapes. -/
def hex4 (n : Nat) : String :=
  String.mk [hexDigitChar (n / 4096 % 16), hexDigitChar (n / 256 % 16),
             hexDigitChar (n / 16 % 16), hexDigitChar (n % 16)]

/-- Escape one character the way Python `json.dumps` (with its default
`ensure_ascii=True`) does: the two-character escapes for quote,
backslash and common control characters, `\uXXXX` for the remaining
characters outside the printable ASCII range 0x20–0x7e (surrogate
pairs above 0xFFFF), and the character itself otherwise. -/
def escChar (c : Char) : String :=
  if c = '"' then "\\\""
  else if c = '\\' then "\\\\"
  else if c = '\n' then "\\n"
  else if c = '\r' then "\\r"
  else if c = '\t' then "\\t"
  else if c = '\x08' then "\\b"
  else if c = '\x0c' then "\\f"
  else if c.toNat < 32 ∨ 127 ≤ c.toNat then
    if c.toNat ≤ 65535 then "\\u" ++ hex4 c.toNat
    else
      "\\u" ++ hex4 (55296 + (c.toNat - 65536) / 1024) ++
      "\\u" ++ hex4 (56320 + (c.toNat - 65536) % 1024)
  else String.singleton c

/-- Serialize a string as a JSON string literal (Python `json.dumps` on
a `str`). -/
def jstr (s : String) : String :=
  "\"" ++ String.join (s.data.map escChar) ++ "\""

mutual

/-- `json.dumps` with Python's default separators
(`", "` between items, `": "` after keys). -/
def jdump : JVal → String
  | .null => "null"
  | .bool true => "true"
  | .bool false => "false"
  | .num n => toString n
  | .str s => jstr s
  | .arr xs => "[" ++ jdumpArr xs ++ "]"
  | .obj kvs => "\x7b" ++ jdumpObj kvs ++ "\x7d"

/-- Comma-joined serialization of array elements. -/
def jdumpArr : List JVal → String
  | [] => ""
  | [x] => jdump x
  | x :: xs => jdump x ++ ", " ++ jdumpArr xs

/-- Comma-joined serialization of object entries. -/
def jdumpObj : List (String × JVal) → String
  | [] => ""
  | [(k, v)] => jstr k ++ ": " ++ jdump v
  | (k, v) :: kvs => jstr k ++ ": " ++ jdump v ++ ", " ++ jdumpObj kvs

end

/-- Scalar JSON values (null, booleans, strings): the only value shapes
that occur at the top level of a serialized protocol event. -/
def flatVal : JVal → Bool
  | .null => true
  | .bool _ => true
  | .str _ => true
  | _ => false

/-- Intermediate result of the tolerant parser: a complete value with
the remaining input, an `incomplete` value (the input ended in the
middle of the value), or an unrecoverable failure. -/
inductive PRes (α : Type) where
  | done (v : α) (rest : List Char) : PRes α
  | incomplete : PRes α
  | fail : PRes α

/-- Skip JSON whitespace. -/
def skipWs : List Char → List Char
  | c :: rest =>
      if c = ' ' ∨ c = '\n' ∨ c = '\r' ∨ c = '\t' then skipWs rest else c :: rest
  | [] => []

/-- The value of a hexadecimal digit, `none` for other characters. -/
def hexVal (c : Char) : Option Nat :=
  if '0' ≤ c ∧ c ≤ '9' then some (c.toNat - 48)
  else if 'a' ≤ c ∧ c ≤ 'f' then some (c.toNat - 87)
  else if 'A' ≤ c ∧ c ≤ 'F' then some (c.toNat - 55)
  else none

/-- Decode one string-literal escape (the characters after a backslash);
returns the decoded character and the remaining input, `incomplete` if
the input ends inside the escape, `fail` on a malformed escape. -/
def readEscape : List Char → PRes Char
  | [] => .incomplete
  | c :: rest =>
      if c = '"' then .done '"' rest
      else if c = '\\' then .done '\\' rest
      else if c = '/' then .done '/' rest
      else if c = 'n' then .done '\n' rest
      else if c = 't' then .done '\t' rest
      else if c = 'r' then .done '\r' rest
      else if c = 'b' then .done '\x08' rest
      else if c = 'f' then .done '\x0c' rest
      else if c = 'u' then
        match rest with
        | a :: b :: c' :: d :: rest' =>
            match hexVal a, hexVal b, hexVal c', hexVal d with
            | some va, some vb, some vc, some vd =>
                .done (Char.ofNat (va * 4096 + vb * 256 + vc * 16 + vd)) rest'
            | _, _, _, _ => .fail
        | _ => .incomplete
      else .fail

/-- Read the body of a JSON string literal (the opening quote already
consumed): the decoded string and the input after the closing quote,
`incomplete` when the input ends before the closing quote.  The fuel
is an upper bound on the input length. -/
def readStringBodyF (fuel : Nat) (s : List Char) : PRes String :=
  match fuel with
  | 0 => .fail
  | fuel + 1 =>
    match s with
    | [] => .incomplete
    | c :: rest =>
        if c = '"' then .done "" rest
        else if c = '\\' then
          match readEscape rest with
          | .done d rest' =>
              match readStringBodyF fuel rest' with
              | .done s' r => .done (String.singleton d ++ s') r
              | .incomplete => .incomplete
              | .fail => .fail
          | .incomplete => .incomplete
          | .fail => .fail
        else
          match readStringBodyF fuel rest with
          | .done s' r => .done (String.singleton c ++ s') r
          | .incomplete => .incomplete
          | .fail => .fail

/-- `readStringBodyF` with enough fuel for its input. -/
def readStringBody (s : List Char) : PRes String :=
  readStringBodyF (s.length + 1) s

/-- Consume a leading run of decimal digits. -/
def readDigits : List Char → List Char × List Char
  | [] => ([], [])
  | c :: rest =>
      if c.isDigit then
        let (ds, r) := readDigits rest
        (c :: ds, r)
      else ([], c :: rest)

mutual

/-- Modelled from the spec: one tolerant-parse step for a JSON value.
The external `partialjson` dependency (`PartialJSONParser().parse`,
imported in `runloop.py` but not part of src/) is modelled from spec
section 4.3: the parser accepts syntactically incomplete input
(unterminated strings, unclosed braces and brackets) and returns the
partial value implied by as much well-formed prefix as it can recover;
per concrete scenario 2, a prefix that ends inside a scalar value
(unterminated string, literal, or a numeral at end of input) recovers
nothing for that value, so the enclosing container keeps only its
completed entries.  Unrecoverable syntax errors fail.  Only integer
numerals are modelled. -/
def parseVal (fuel : Nat) (s : List Char) : PRes JVal :=
  match fuel with
  | 0 => .fail
  | fuel + 1 =>
    match skipWs s with
    | [] => .incomplete
    | c :: rest =>
        if c = '"' then
          match readStringBody rest with
          | .done str r => .done (.str str) r
          | .incomplete => .incomplete
          | .fail => .fail
        else if c = '\x7b' then parseObjEntries fuel rest []
        else if c = '[' then parseArrElems fuel rest []
        else if c = 't' then
          if rest.take 3 = ['r', 'u', 'e'] then .done (.bool true) (rest.drop 3)
          else if ['r', 'u', 'e'].take rest.length = rest then .incomplete
          else .fail
        else if c = 'f' then
          if rest.take 4 = ['a', 'l', 's', 'e'] then .done (.bool false) (rest.drop 4)
          else if ['a', 'l', 's', 'e'].take rest.length = rest then .incomplete
          else .fail
        else if c = 'n' then
          if rest.take 3 = ['u', 'l', 'l'] then .done .null (rest.drop 3)
          else if ['u', 'l', 'l'].take rest.length = rest then .incomplete
          else .fail
        else if c = '-' then
          match readDigits rest with
          | ([], _) => if rest = [] then .incomplete else .fail
          | (_, []) => .incomplete
          | (ds, r) =>
              if r.head? = some '.' ∨ r.head? = some 'e' ∨ r.head? = some 'E' then .fail
              else .done (.num (-(String.toNat! (String.mk ds) : Int))) r
        else if c.isDigit then
          match readDigits (c :: rest) with
          | (_, []) => .incomplete
          | (ds, r) =>
              if r.head? = some '.' ∨ r.head? = some 'e' ∨ r.head? = some 'E' then .fail
              else .done (.num (String.toNat! (String.mk ds) : Int)) r
        else .fail

/-- Tolerant parse of the entries of a JSON object, the opening brace
already consumed: completed key/value pairs are accumulated; input
exhaustion recovers the pairs completed so far. -/
def parseObjEntries (fuel : Nat) (s : List Char) (acc : List (String × JVal)) :
    PRes JVal :=
  match fuel with
  | 0 => .fail
  | fuel + 1 =>
    match skipWs s with
    | [] => .done (.obj acc) []
    | c :: rest =>
        if c = '\x7d' then .done (.obj acc) rest
        else if c = '"' then
          match readStringBody rest with
          | .incomplete => .done (.obj acc) []
          | .fail => .fail
          | .done k r =>
              match skipWs r with
              | [] => .done (.obj acc) []
              | c2 :: r2 =>
                  if c2 = ':' then
                    match parseVal fuel r2 with
                    | .incomplete => .done (.obj acc) []
                    | .fail => .fail
                    | .done v r3 =>
                        match skipWs r3 with
                        | [] => .done (.obj (acc ++ [(k, v)])) []
                        | c3 :: r4 =>
                            if c3 = ',' then
                              parseObjEntries fuel r4 (acc ++ [(k, v)])
                            else if c3 = '\x7d' then
                              .done (.obj (acc ++ [(k, v)])) r4
                            else .fail
                  else .fail
        else .fail

/-- Tolerant parse of the elements of a JSON array, the opening bracket
already consumed: completed elements are accumulated; input exhaustion
recovers the elements completed so far. -/
def parseArrElems (fuel : Nat) (s : List Char) (acc : List JVal) : PRes JVal :=
  match fuel with
  | 0 => .fail
  | fuel + 1 =>
    match skipWs s with
    | [] => .done (.arr acc) []
    | c :: rest =>
        if c = ']' then .done (.arr acc) rest
        else
          match parseVal fuel (c :: rest) with
          | .incomplete => .done (.arr acc) []
          | .fail => .fail
          | .done v r =>
              match skipWs r with
              | [] => .done (.arr (acc ++ [v])) []
              | c2 :: r2 =>
                  if c2 = ',' then parseArrElems fuel r2 (acc ++ [v])
                  else if c2 = ']' then .done (.arr (acc ++ [v])) r2
                  else .fail

end

/-- Modelled from the spec: `PartialJSONParser().parse` as used by
`predict_state` — a tolerant parse of the accumulated argument buffer,
which only succeeds when the recovered value is a JSON object (tool
arguments are JSON objects); any unrecoverable failure returns
nothing. -/
def tolerantParse (s : String) : Option (List (String × JVal)) :=
  match parseVal (s.length + 1) s.data with
  | .done (.obj entries) _ => some entries
  | _ => none

/-- `protocol.PredictStateConfig`: maps a state key to the tool whose
streamed arguments feed it, optionally restricted to one argument. -/
structure PredictStateConfig where
  tool_name : String
  tool_argument : Option String

/-- `protocol.AgentStateMessage` (without its constant `type` tag,
which the serializer emits from the event variant). -/
structure AgentStateMessage where
  threadId : String
  agentName : String
  nodeName : String
  runId : String
  active : Bool
  role : String
  state : String
  running : Bool

/-- `protocol.agent_state_message`: helper constructor. -/
def agent_state_message (thread_id agent_name node_name run_id : String)
    (active : Bool) (role : String) (state : String) (running : Bool) :
    AgentStateMessage :=
  { threadId := thread_id, agentName := agent_name, nodeName := node_name,
    runId := run_id, active := active, role := role, state := state,
    running := running }

/-- `protocol.RuntimeEventTypes`: the closed enum of wire event kinds. -/
inductive RuntimeEventTypes where
  | TEXT_MESSAGE_START
  | TEXT_MESSAGE_CONTENT
  | TEXT_MESSAGE_END
  | ACTION_EXECUTION_START
  | ACTION_EXECUTION_ARGS
  | ACTION_EXECUTION_END
  | ACTION_EXECUTION_RESULT
  | AGENT_STATE_MESSAGE
  | META_EVENT
  | RUN_STARTED
  | RUN_FINISHED
  | RUN_ERROR
  | NODE_STARTED
  | NODE_FINISHED

/-- The wire string of each enum member (Python `Enum.value`). -/
def RuntimeEventTypes.value : RuntimeEventTypes → String
  | .TEXT_MESSAGE_START => "TextMessageStart"
  | .TEXT_MESSAGE_CONTENT => "TextMessageContent"
  | .TEXT_MESSAGE_END => "TextMessageEnd"
  | .ACTION_EXECUTION_START => "ActionExecutionStart"
  | .ACTION_EXECUTION_ARGS => "ActionExecutionArgs"
  | .ACTION_EXECUTION_END => "ActionExecutionEnd"
  | .ACTION_EXECUTION_RESULT => "ActionExecutionResult"
  | .AGENT_STATE_MESSAGE => "AgentStateMessage"
  | .META_EVENT => "MetaEvent"
  | .RUN_STARTED => "RunStarted"
  | .RUN_FINISHED => "RunFinished"
  | .RUN_ERROR => "RunError"
  | .NODE_STARTED => "NodeStarted"
  | .NODE_FINISHED => "NodeFinished"

/-- `protocol.RuntimeEvent`: the tagged union of protocol events,
meta events and lifecycle events.  The Python meta event's
`name : RuntimeMetaEventName` discriminant is encoded in the variant
(`metaPredictState` for `PREDICT_STATE`, `metaExit` for `EXIT`,
`metaLangGraphInterrupt` for `LANG_GRAPH_INTERRUPT_EVENT`), each
carrying its `value` at the type the dispatcher consumes it. -/
inductive RuntimeEvent where
  | textMessageStart (messageId : String) (parentMessageId : Option String)
  | textMessageContent (messageId : String) (content : String)
  | textMessageEnd (messageId : String)
  | actionExecutionStart (actionExecutionId : String) (actionName : String)
      (parentMessageId : Option String)
  | actionExecutionArgs (actionExecutionId : String) (args : String)
  | actionExecutionEnd (actionExecutionId : String)
  | actionExecutionResult (actionName : String) (actionExecutionId : String)
      (result : String)
  | agentStateMessage (m : AgentStateMessage)
  | metaPredictState (value : List (String × PredictStateConfig))
  | metaExit (value : Bool)
  | metaLangGraphInterrupt (value : JVal)
  | runStarted (state : List (String × JVal))
  | runFinished (state : List (String × JVal))
  | runError (error : String)
  | nodeStarted (nodeName : String) (state : List (String × JVal))
  | nodeFinished (nodeName : String) (state : List (String × JVal))

/-- The `type` discriminant of an event (Python `event["type"]`). -/
def eventType : RuntimeEvent → RuntimeEventTypes
  | .textMessageStart .. => .TEXT_MESSAGE_START
  | .textMessageContent .. => .TEXT_MESSAGE_CONTENT
  | .textMessageEnd .. => .TEXT_MESSAGE_END
  | .actionExecutionStart .. => .ACTION_EXECUTION_START
  | .actionExecutionArgs .. => .ACTION_EXECUTION_ARGS
  | .actionExecutionEnd .. => .ACTION_EXECUTION_END
  | .actionExecutionResult .. => .ACTION_EXECUTION_RESULT
  | .agentStateMessage .. => .AGENT_STATE_MESSAGE
  | .metaPredictState .. => .META_EVENT
  | .metaExit .. => .META_EVENT
  | .metaLangGraphInterrupt .. => .META_EVENT
  | .runStarted .. => .RUN_STARTED
  | .runFinished .. => .RUN_FINISHED
  | .runError .. => .RUN_ERROR
  | .nodeStarted .. => .NODE_STARTED
  | .nodeFinished .. => .NODE_FINISHED

/-- Is this one of the eight protocol (always-forwarded) event kinds? -/
def isProtocolEvent (e : RuntimeEvent) : Bool :=
  match e with
  | .textMessageStart .. | .textMessageContent .. | .textMessageEnd ..
  | .actionExecutionStart .. | .actionExecutionArgs ..
  | .actionExecutionEnd .. | .actionExecutionResult ..
  | .agentStateMessage .. => true
  | _ => false

/-- Is this one of the two kinds on which the dispatcher additionally
invokes the State Predictor? -/
def isPredictTrigger (e : RuntimeEvent) : Bool :=
  match e with
  | .actionExecutionStart .. | .actionExecutionArgs .. => true
  | _ => false

/-- An optional string as a JSON value (Python `None` → `null`). -/
def optStr : Option String → JVal
  | none => .null
  | some s => .str s

/-- The JSON object form of a `PredictStateConfig` (the dict the Python
code passes around). -/
def configToJson (c : PredictStateConfig) : JVal :=
  .obj [("tool_name", .str c.tool_name), ("tool_argument", optStr c.tool_argument)]

/-- The dictionary form of each event, with the exact key order of the
constructor helpers in `protocol.py` and the `type` discriminant
rendered as its wire string (`protocol.emit_runtime_events` converts
every `Enum`-valued field with `.value` before `json.dumps`). -/
def eventToJson : RuntimeEvent → JVal
  | .textMessageStart messageId parentMessageId =>
      .obj [("type", .str RuntimeEventTypes.TEXT_MESSAGE_START.value),
            ("messageId", .str messageId),
            ("parentMessageId", optStr parentMessageId)]
  | .textMessageContent messageId content =>
      .obj [("type", .str RuntimeEventTypes.TEXT_MESSAGE_CONTENT.value),
            ("messageId", .str messageId),
            ("content", .str content)]
  | .textMessageEnd messageId =>
      .obj [("type", .str RuntimeEventTypes.TEXT_MESSAGE_END.value),
            ("messageId", .str messageId)]
  | .actionExecutionStart actionExecutionId actionName parentMessageId =>
      .obj [("type", .str RuntimeEventTypes.ACTION_EXECUTION_START.value),
            ("actionExecutionId", .str actionExecutionId),
            ("actionName", .str actionName),
            ("parentMessageId", optStr parentMessageId)]
  | .actionExecutionArgs actionExecutionId args =>
      .obj [("type", .str RuntimeEventTypes.ACTION_EXECUTION_ARGS.value),
            ("actionExecutionId", .str actionExecutionId),
            ("args", .str args)]
  | .actionExecutionEnd actionExecutionId =>
      .obj [("type", .str RuntimeEventTypes.ACTION_EXECUTION_END.value),
            ("actionExecutionId", .str actionExecutionId)]
  | .actionExecutionResult actionName actionExecutionId result =>
      .obj [("type", .str RuntimeEventTypes.ACTION_EXECUTION_RESULT.value),
            ("actionName", .str actionName),
            ("actionExecutionId", .str actionExecutionId),
            ("result", .str result)]
  | .agentStateMessage m =>
      .obj [("type", .str RuntimeEventTypes.AGENT_STATE_MESSAGE.value),
            ("threadId", .str m.threadId),
            ("agentName", .str m.agentName),
            ("nodeName", .str m.nodeName),
            ("runId", .str m.runId),
            ("active", .bool m.active),
            ("role", .str m.role),
            ("state", .str m.state),
            ("running", .bool m.running)]
  | .metaPredictState value =>
      .obj [("type", .str RuntimeEventTypes.META_EVENT.value),
            ("name", .str "PredictState"),
            ("value", .obj (value.map (fun kv => (kv.1, configToJson kv.2))))]
  | .metaExit value =>
      .obj [("type", .str RuntimeEventTypes.META_EVENT.value),
            ("name", .str "Exit"),
            ("value", .bool value)]
  | .metaLangGraphInterrupt value =>
      .obj [("type", .str RuntimeEventTypes.META_EVENT.value),
            ("name", .str "LangGraphInterruptEvent"),
            ("value", value)]
  | .runStarted state =>
      .obj [("type", .str RuntimeEventTypes.RUN_STARTED.value),
            ("state", .obj state)]
  | .runFinished state =>
      .obj [("type", .str RuntimeEventTypes.RUN_FINISHED.value),
            ("state", .obj state)]
  | .runError error =>
      .obj [("type", .str RuntimeEventTypes.RUN_ERROR.value),
            ("error", .str error)]
  | .nodeStarted nodeName state =>
      .obj [("type", .str RuntimeEventTypes.NODE_STARTED.value),
            ("node_name", .str nodeName),
            ("state", .obj state)]
  | .nodeFinished nodeName state =>
      .obj [("type", .str RuntimeEventTypes.NODE_FINISHED.value),
            ("node_name", .str nodeName),
            ("state", .obj state)]

/-- `protocol.emit_runtime_events`: newline-delimited JSON —
`"\n".join(json.dumps(serialize_event(e)) for e in events) + "\n"`. -/
def emit_runtime_events (events : List RuntimeEvent) : String :=
  String.intercalate "\n" (events.map (fun e => jdump (eventToJson e))) ++ "\n"

/-- `protocol.emit_runtime_event`: serialization of one event, defined
as `emit_runtime_events` on the singleton list. -/
def emit_runtime_event (event : RuntimeEvent) : String :=
  emit_runtime_events [event]

/-- `runloop.CopilotKitRunExecution`: the per-run mutable execution
record (a `TypedDict` in the source). -/
structure CopilotKitRunExecution where
  thread_id : String
  agent_name : String
  run_id : String
  should_exit : Bool
  node_name : String
  is_finished : Bool
  predict_state_configuration : List (String × PredictStateConfig)
  predicted_state : List (String × JVal)
  argument_buffer : String
  current_tool_call : Option String
  state : List (String × JVal)

/-- `runloop._filter_state`: drop the excluded keys (defaulting to
`messages` and `id` — Python `exclude_keys or ["messages", "id"]`
also substitutes the default for an empty list) from a state dict,
preserving entry order.  States are modelled as plain dicts, so
`_to_dict_if_pydantic` is the identity here. -/
def _filter_state (state : List (String × JVal))
    (exclude_keys : Option (List String)) : List (String × JVal) :=
  let ex := match exclude_keys with
    | none => ["messages", "id"]
    | some [] => ["messages", "id"]
    | some l => l
  state.filter (fun kv => ¬ ex.contains kv.1)

/-- One step of the `predict_state` configuration loop body in
`runloop.predict_state`: given the parsed partial arguments and the
current tool call, fold one `(state_key, config)` entry into the
`(predicted_state, emit_update)` pair. -/
def predictStep (current_arguments : List (String × JVal))
    (current_tool_call : Option String)
    (st : List (String × JVal) × Bool) (kv : String × PredictStateConfig) :
    List (String × JVal) × Bool :=
  if some kv.2.tool_name = current_tool_call then
    match kv.2.tool_argument with
    | some tool_argument =>
        match dictGet current_arguments tool_argument with
        | some argument_value =>
            if argument_value.isNull then st
            else (dictSet st.1 kv.1 argument_value, true)
        | none => st
    | none => (dictSet st.1 kv.1 (.obj current_arguments), true)
  else st

/-- `runloop.predict_state`: the State Predictor.  On
`ACTION_EXECUTION_START` it records the tool name and clears the
argument buffer; on `ACTION_EXECUTION_ARGS` it appends the chunk,
bails out unless the current tool call is referenced by the
configuration, tolerantly parses the buffer (returning nothing on
failure), folds the configuration into `predicted_state`, and — when
anything was updated — returns an `AgentStateMessage` whose state is
the filtered merge of the engine state and the predicted state.  The
updated execution record is returned alongside (the Python function
mutates it in place). -/
def predict_state (thread_id agent_name run_id : String)
    (event : RuntimeEvent) (execution : CopilotKitRunExecution) :
    Option AgentStateMessage × CopilotKitRunExecution :=
  match event with
  | .actionExecutionStart _ actionName _ =>
      (none, { execution with current_tool_call := some actionName,
                              argument_buffer := "" })
  | .actionExecutionArgs _ args =>
      let execution :=
        { execution with
            argument_buffer := execution.argument_buffer ++ args }
      let tool_names :=
        execution.predict_state_configuration.map (fun c => c.2.tool_name)
      let relevant : Bool := match execution.current_tool_call with
        | some t => tool_names.contains t
        | none => false
      if relevant = false then
        (none, execution)
      else
        match tolerantParse execution.argument_buffer with
        | none => (none, execution)
        | some current_arguments =>
            let folded := execution.predict_state_configuration.foldl
              (predictStep current_arguments execution.current_tool_call)
              (execution.predicted_state, false)
            let execution := { execution with predicted_state := folded.1 }
            if folded.2 then
              (some (agent_state_message thread_id agent_name
                      execution.node_name run_id true "assistant"
                      (jdump (.obj (_filter_state
                        (dictMerge execution.state execution.predicted_state)
                        none)))
                      true),
               execution)
            else (none, execution)
  | _ => (none, execution)

/-- `runloop.handle_runtime_event`: classify one queue event, update the
execution record, and return the serialized JSON lines to forward (or
nothing).  The `RUN_ERROR` branch's logging is not modelled. -/
def handle_runtime_event (event : RuntimeEvent)
    (execution : CopilotKitRunExecution) :
    Option String × CopilotKitRunExecution :=
  match event with
  | .textMessageStart .. => (some (emit_runtime_events [event]), execution)
  | .textMessageContent .. => (some (emit_runtime_events [event]), execution)
  | .textMessageEnd .. => (some (emit_runtime_events [event]), execution)
  | .actionExecutionEnd .. => (some (emit_runtime_events [event]), execution)
  | .actionExecutionResult .. => (some (emit_runtime_events [event]), execution)
  | .agentStateMessage .. => (some (emit_runtime_events [event]), execution)
  | .actionExecutionStart .. =>
      let pr := predict_state execution.thread_id execution.agent_name
        execution.run_id event execution
      let events := match pr.1 with
        | some message => [event, .agentStateMessage message]
        | none => [event]
      (some (emit_runtime_events events), pr.2)
  | .actionExecutionArgs .. =>
      let pr := predict_state execution.thread_id execution.agent_name
        execution.run_id event execution
      let events := match pr.1 with
        | some message => [event, .agentStateMessage message]
        | none => [event]
      (some (emit_runtime_events events), pr.2)
  | .metaPredictState value =>
      (none, { execution with predict_state_configuration := value })
  | .metaExit value =>
      (none, { execution with should_exit := value })
  | .metaLangGraphInterrupt _ => (none, execution)
  | .runStarted state => (none, { execution with state := state })
  | .nodeStarted node_name state =>
      let execution := { execution with node_name := node_name, state := state }
      (some (emit_runtime_event (.agentStateMessage
        (agent_state_message execution.thread_id execution.agent_name
          execution.node_name execution.run_id true "assistant"
          (jdump (.obj (_filter_state execution.state none))) true))),
       execution)
  | .nodeFinished _ state =>
      let execution :=
        { execution with
            predict_state_configuration := [],
            current_tool_call := none,
            argument_buffer := "",
            predicted_state := [],
            state := state }
      (some (emit_runtime_event (.agentStateMessage
        (agent_state_message execution.thread_id execution.agent_name
          execution.node_name execution.run_id false "assistant"
          (jdump (.obj (_filter_state execution.state none))) true))),
       execution)
  | .runFinished _ => (none, { execution with is_finished := true })
  | .runError _ => (none, { execution with is_finished := true })

/-- `runloop.copilotkit_run`: the consumer loop, modelled over the
ordered sequence of events the producer publishes to the per-run FIFO
channel (the single-producer, single-consumer cooperative scheduling
makes the queue deliver exactly that sequence in order).  Each event is
dispatched through `handle_runtime_event`; non-`None` results are
yielded; the loop stops once `is_finished` is set. -/
def copilotkit_run : List RuntimeEvent → CopilotKitRunExecution → List String
  | [], _ => []
  | event :: rest, execution =>
      let r := handle_runtime_event event execution
      let out := match r.1 with
        | some json_lines => [json_lines]
        | none => []
      if r.2.is_finished then out else out ++ copilotkit_run rest r.2

/-- The execution record of spec scenario 2: `predict_state_configuration`
maps state key `name` to tool `update_user`, argument `name`. -/
def c1Execution : CopilotKitRunExecution :=
  { thread_id := "thread_1", agent_name := "assistant", run_id := "run_1",
    should_exit := false, node_name := "", is_finished := false,
    predict_state_configuration :=
      [("name", { tool_name := "update_user", tool_argument := some "name" })],
    predicted_state := [], argument_buffer := "", current_tool_call := none,
    state := [] }

/-- Scenario 2, step 1: dispatch `ToolStart(exec1, "update_user")`. -/
def c1Step1 : Option String × CopilotKitRunExecution :=
  handle_runtime_event (.actionExecutionStart "exec1" "update_user" none)
    c1Execution

/-- Scenario 2, step 2: dispatch the first args chunk (the buffer is then
an unterminated prefix of the arguments JSON). -/
def c1Step2 : Option String × CopilotKitRunExecution :=
  handle_runtime_event (.actionExecutionArgs "exec1" "\x7b\"name\": \"Al")
    c1Step1.2

/-- Scenario 2, step 3: dispatch the second args chunk, completing the
arguments JSON. -/
def c1Step3 : Option String × CopilotKitRunExecution :=
  handle_runtime_event (.actionExecutionArgs "exec1" "ice\"\x7d") c1Step2.2

/-- A concrete execution record whose `predict_state_configuration`
routes tool `write_doc`'s argument `text` to state key `doc`, with the
tool call already open; used to exercise the predicting branch of the
dispatcher. -/
def c2Execution : CopilotKitRunExecution :=
  { thread_id := "t1", agent_name := "agent", run_id := "r1",
    should_exit := false, node_name := "node", is_finished := false,
    predict_state_configuration :=
      [("doc", { tool_name := "write_doc", tool_argument := some "text" })],
    predicted_state := [], argument_buffer := "",
    current_tool_call := some "write_doc", state := [] }

/-- A `ToolArgs` event carrying complete arguments JSON for `write_doc`. -/
def c2Event : RuntimeEvent :=
  .actionExecutionArgs "e1" "\x7b\"text\": \"hi\"\x7d"

/-- The snapshot the State Predictor produces for `c2Event` on
`c2Execution`. -/
def c2Message : AgentStateMessage :=
  { threadId := "t1", agentName := "agent", nodeName := "node",
    runId := "r1", active := true, role := "assistant",
    state := jdump (.obj [("doc", .str "hi")]), running := true }

/-- The execution record after the State Predictor processes `c2Event`
on `c2Execution`. -/
def c2Execution' : CopilotKitRunExecution :=
  { c2Execution with
      argument_buffer := "\x7b\"text\": \"hi\"\x7d",
      predicted_state := [("doc", .str "hi")] }

/-- A concrete execution record with no prediction configured, used for
the plain text-streaming scenario. -/
def c3Execution : CopilotKitRunExecution :=
  { thread_id := "thread_1", agent_name := "assistant", run_id := "run_1",
    should_exit := false, node_name := "", is_finished := false,
    predict_state_configuration := [], predicted_state := [],
    argument_buffer := "", current_tool_call := none, state := [] }

/-- A concrete execution record used to exercise the predictor's
parse-failure path. -/
def c4Execution : CopilotKitRunExecution :=
  { thread_id := "t4", agent_name := "a4", run_id := "r4",
    should_exit := false, node_name := "n4", is_finished := false,
    predict_state_configuration :=
      [("k", { tool_name := "tool_k", tool_argument := some "a" })],
    predicted_state := [("k", .str "old")], argument_buffer := "",
    current_tool_call := some "tool_k", state := [] }

/-- A concrete execution record whose configuration maps the entire
argument object of `tool_x` to state key `x`, with an engine state
containing the bookkeeping keys `messages` and `id`. -/
def c6Execution : CopilotKitRunExecution :=
  { thread_id := "t6", agent_name := "a6", run_id := "r6",
    should_exit := false, node_name := "n6", is_finished := false,
    predict_state_configuration :=
      [("x", { tool_name := "tool_x", tool_argument := none })],
    predicted_state := [], argument_buffer := "",
    current_tool_call := some "tool_x",
    state := [("messages", .arr []), ("id", .str "i1"), ("y", .num 2)] }

/-- A `ToolArgs` event carrying complete arguments JSON for `tool_x`. -/
def c6Event : RuntimeEvent :=
  .actionExecutionArgs "e6" "\x7b\"q\": true\x7d"

/-- The snapshot the State Predictor produces for `c6Event` on
`c6Execution`. -/
def c6Message : AgentStateMessage :=
  { threadId := "t6", agentName := "a6", nodeName := "n6",
    runId := "r6", active := true, role := "assistant",
    state := jdump (.obj [("y", .num 2), ("x", .obj [("q", .bool true)])]),
    running := true }

/-- The execution record after the State Predictor processes `c6Event`
on `c6Execution`. -/
def c6Execution' : CopilotKitRunExecution :=
  { c6Execution with
      argument_buffer := "\x7b\"q\": true\x7d",
      predicted_state := [("x", .obj [("q", .bool true)])] }

/-- C1: with `predict_state_configuration` mapping `name` to
`update_user`/`name`, dispatching ToolStart(exec1, update_user), then
the args chunks splitting the JSON text of the arguments object inside
the string value of `name`, the first two dispatches forward exactly
the triggering event alone (no prediction snapshot), and the third
forwards the triggering event followed by exactly one prediction
snapshot whose serialized state is the JSON object with `name` bound
to exactly the string `Alice`. -/
theorem c1_predict_scenario :
    c1Step1.1 =
      some (emit_runtime_events
        [.actionExecutionStart "exec1" "update_user" none]) ∧
    c1Step2.1 =
      some (emit_runtime_events
        [.actionExecutionArgs "exec1" "\x7b\"name\": \"Al"]) ∧
    c1Step3.1 =
      some (emit_runtime_events
        [.actionExecutionArgs "exec1" "ice\"\x7d",
         .agentStateMessage (agent_state_message "thread_1" "assistant" ""
           "run_1" true "assistant"
           (jdump (.obj [("name", .str "Alice")])) true)]) ∧
    dictGet c1Step3.2.predicted_state "name" = some (.str "Alice") :=
  ⟨rfl, rfl, rfl, rfl⟩

/-- C5: after a `NodeFinished` event, whatever the prior contents of the
execution record, the prediction working set is fully reset:
`predicted_state`, `argument_buffer`, `current_tool_call` and
`predict_state_configuration` are all empty. -/
theorem c5_node_finished_resets_prediction
    (execution : CopilotKitRunExecution) (node_name : String)
    (state : List (String × JVal)) :
    ((handle_runtime_event (.nodeFinished node_name state) execution).2).predicted_state = [] ∧
    ((handle_runtime_event (.nodeFinished node_name state) execution).2).argument_buffer = "" ∧
    ((handle_runtime_event (.nodeFinished node_name state) execution).2).current_tool_call = none ∧
    ((handle_runtime_event (.nodeFinished node_name state) execution).2).predict_state_configuration = [] :=
  ⟨rfl, rfl, rfl, rfl⟩

/-- C8: a meta event whose name is neither `PREDICT_STATE` nor `EXIT`
(`LANG_GRAPH_INTERRUPT_EVENT` is the one such name in the wire
vocabulary; every one of the fourteen `RuntimeEventTypes` is otherwise
dispatched) is a no-op: nothing is forwarded and the execution record
is returned exactly unchanged. -/
theorem c8_unknown_meta_event_noop
    (execution : CopilotKitRunExecution) (value : JVal) :
    handle_runtime_event (.metaLangGraphInterrupt value) execution =
      (none, execution) :=
  rfl

/-- C9: meta events forward nothing: a `PREDICT_STATE` meta event
overwrites `predict_state_configuration` with the event's value and
changes no other field; an `EXIT` meta event sets `should_exit` from
the event's value and changes no other field. -/
theorem c9_meta_events_update_only_their_field :
    (∀ (execution : CopilotKitRunExecution)
        (value : List (String × PredictStateConfig)),
      handle_runtime_event (.metaPredictState value) execution =
        (none, { execution with predict_state_configuration := value })) ∧
    (∀ (execution : CopilotKitRunExecution) (value : Bool),
      handle_runtime_event (.metaExit value) execution =
        (none, { execution with should_exit := value })) :=
  ⟨fun _ _ => rfl, fun _ _ => rfl⟩

/-- Serializing two events yields the serialization of the first
followed by the serialization of the second. -/
theorem emit_runtime_events_pair (a b : RuntimeEvent) :
    emit_runtime_events [a, b] = emit_runtime_event a ++ emit_runtime_event b := by
  simp [emit_runtime_events, emit_runtime_event, String.intercalate,
    String.intercalate.go, String.append_assoc]

/-- The State Predictor never changes `node_name`, whatever the event. -/
theorem predict_state_preserves_node_name (tid an rid : String)
    (e : RuntimeEvent) (ex : CopilotKitRunExecution) :
    ((predict_state tid an rid e ex).2).node_name = ex.node_name := by
  cases e <;> try rfl
  case actionExecutionArgs id args =>
    unfold predict_state
    dsimp only
    split
    · rfl
    · split
      · rfl
      · split <;> rfl

/-- C2: when the dispatcher processes a `ToolStart`/`ToolArgs` event and
the State Predictor returns a snapshot, the forwarded text is exactly
the serialization of the triggering event followed immediately by the
serialization of the predicted `AgentStateMessage` (the snapshot sits
strictly after its trigger and before anything forwarded later); every
other protocol event is forwarded as exactly its own serialization, so
the stream order is the channel order with only this insertion. -/
theorem c2_snapshot_causality :
    (∀ (ex ex' : CopilotKitRunExecution) (e : RuntimeEvent)
        (m : AgentStateMessage),
      isPredictTrigger e = true →
      predict_state ex.thread_id ex.agent_name ex.run_id e ex = (some m, ex') →
      handle_runtime_event e ex =
        (some (emit_runtime_event e ++
               emit_runtime_event (.agentStateMessage m)), ex')) ∧
    (∀ (ex : CopilotKitRunExecution) (e : RuntimeEvent),
      isProtocolEvent e = true → isPredictTrigger e = false →
      handle_runtime_event e ex = (some (emit_runtime_event e), ex)) := by
  constructor
  · intro ex ex' e m htrig hpred
    cases e <;>
      first
        | exact Bool.noConfusion htrig
        | simp only [handle_runtime_event, hpred, emit_runtime_events_pair]
  · intro ex e hprot htrig
    cases e <;>
      first
        | exact Bool.noConfusion hprot
        | exact Bool.noConfusion htrig
        | rfl

/-- Witness for C2: on `c2Execution`, the complete-arguments event
`c2Event` makes the predictor return the snapshot `c2Message`, and the
dispatcher forwards trigger-then-snapshot. -/
theorem c2_snapshot_causality_witness :
    handle_runtime_event c2Event c2Execution =
      (some (emit_runtime_event c2Event ++
             emit_runtime_event (.agentStateMessage c2Message)),
       c2Execution') :=
  c2_snapshot_causality.1 c2Execution c2Execution' c2Event c2Message rfl rfl

/-- C3: a producer that emits `TextStart("m1")`, `TextContent("m1","Hi")`,
`TextEnd("m1")`, `RunFinished({})` yields exactly the three
serializations of the text events, in that order; the `RunFinished`
event is not forwarded and the output sequence ends there. -/
theorem c3_text_stream_scenario (ex : CopilotKitRunExecution)
    (h : ex.is_finished = false) :
    copilotkit_run
      [.textMessageStart "m1" none, .textMessageContent "m1" "Hi",
       .textMessageEnd "m1", .runFinished []] ex =
      [emit_runtime_event (.textMessageStart "m1" none),
       emit_runtime_event (.textMessageContent "m1" "Hi"),
       emit_runtime_event (.textMessageEnd "m1")] := by
  simp [copilotkit_run, handle_runtime_event, h, emit_runtime_event]

/-- Witness for C3: the scenario run on the concrete `c3Execution`. -/
theorem c3_text_stream_scenario_witness :
    c3Execution.is_finished = false ∧
    copilotkit_run
      [.textMessageStart "m1" none, .textMessageContent "m1" "Hi",
       .textMessageEnd "m1", .runFinished []] c3Execution =
      [emit_runtime_event (.textMessageStart "m1" none),
       emit_runtime_event (.textMessageContent "m1" "Hi"),
       emit_runtime_event (.textMessageEnd "m1")] :=
  ⟨rfl, c3_text_stream_scenario c3Execution rfl⟩

/-- C10: the dispatcher ignores the `node_name` carried by a
`NodeFinished` event — `execution["node_name"]` is unchanged, the
synthesized `AgentStateMessage` reports the execution record's current
node name — and no event other than `NodeStarted` ever changes
`node_name`, so it is always the one set by the most recent
`NodeStarted` (or the initial value). -/
theorem c10_node_finished_ignores_event_node_name :
    (∀ (ex : CopilotKitRunExecution) (node_name : String)
        (state : List (String × JVal)),
      ((handle_runtime_event (.nodeFinished node_name state) ex).2).node_name =
        ex.node_name) ∧
    (∀ (ex : CopilotKitRunExecution) (node_name : String)
        (state : List (String × JVal)),
      (handle_runtime_event (.nodeFinished node_name state) ex).1 =
        some (emit_runtime_event (.agentStateMessage
          (agent_state_message ex.thread_id ex.agent_name ex.node_name
            ex.run_id false "assistant"
            (jdump (.obj (_filter_state state none))) true)))) ∧
    (∀ (e : RuntimeEvent) (ex : CopilotKitRunExecution),
      eventType e ≠ .NODE_STARTED →
      ((handle_runtime_event e ex).2).node_name = ex.node_name) := by
  refine ⟨fun ex nn st => rfl, fun ex nn st => rfl, fun e ex h => ?_⟩
  cases e <;> try rfl
  case actionExecutionArgs a b =>
    exact predict_state_preserves_node_name ex.thread_id ex.agent_name
      ex.run_id (.actionExecutionArgs a b) ex
  case nodeStarted a b => exact absurd rfl h

/-- Witness for C10: a `RunStarted` event (not `NodeStarted`) leaves
`node_name` unchanged on the concrete record `c3Execution`. -/
theorem c10_node_finished_ignores_event_node_name_witness :
    ((handle_runtime_event (.runStarted []) c3Execution).2).node_name =
      c3Execution.node_name :=
  c10_node_finished_ignores_event_node_name.2.2 (.runStarted []) c3Execution
    (fun h => nomatch h)

/-- C4: when the tolerant partial parse of the accumulated argument
buffer fails, `predict_state` on a `ToolArgs` event returns no
snapshot and leaves every field of the execution record except the
argument buffer (which accumulated the chunk) unchanged — in
particular `predicted_state` is untouched, so previously predicted
values are never regressed.  (The Lean embedding is a total function:
the guarded parse models the Python `try`/bare-`except`, so no input
raises.) -/
theorem c4_parse_failure_returns_nothing (tid an rid eid chunk : String)
    (ex : CopilotKitRunExecution)
    (h : tolerantParse (ex.argument_buffer ++ chunk) = none) :
    predict_state tid an rid (.actionExecutionArgs eid chunk) ex =
      (none, { ex with argument_buffer := ex.argument_buffer ++ chunk }) ∧
    ((predict_state tid an rid (.actionExecutionArgs eid chunk) ex).2).predicted_state =
      ex.predicted_state := by
  have hmain :
      predict_state tid an rid (.actionExecutionArgs eid chunk) ex =
        (none, { ex with argument_buffer := ex.argument_buffer ++ chunk }) := by
    unfold predict_state
    dsimp only
    split
    · rfl
    · rw [h]
  exact ⟨hmain, by rw [hmain]⟩

/-- Witness for C4: on `c4Execution`, the chunk `not json` makes the
tolerant parse fail; nothing is returned and only the buffer changes. -/
theorem c4_parse_failure_returns_nothing_witness :
    tolerantParse (c4Execution.argument_buffer ++ "not json") = none ∧
    (predict_state "t4" "a4" "r4" (.actionExecutionArgs "e4" "not json")
        c4Execution =
      (none, { c4Execution with
                 argument_buffer := c4Execution.argument_buffer ++ "not json" }) ∧
     ((predict_state "t4" "a4" "r4" (.actionExecutionArgs "e4" "not json")
        c4Execution).2).predicted_state = c4Execution.predicted_state) :=
  ⟨rfl, c4_parse_failure_returns_nothing "t4" "a4" "r4" "e4" "not json"
    c4Execution rfl⟩

/-- `_filter_state` with the default exclusions drops exactly the keys
`messages` and `id` and preserves the lookup of every other key. -/
theorem filter_state_get (state : List (String × JVal)) (k : String) :
    dictGet (_filter_state state none) k =
      if k = "messages" ∨ k = "id" then none else dictGet state k := by
  induction state with
  | nil => simp [_filter_state, dictGet]
  | cons kv rest ih =>
    obtain ⟨k', v⟩ := kv
    by_cases h1 : k' = "messages" <;> by_cases h2 : k' = "id" <;>
      by_cases h3 : k' = k <;>
      simp_all [_filter_state, dictGet, List.filter_cons] <;>
      split <;> simp_all

/-- C6: every `AgentStateMessage` the subsystem synthesizes — by the
`NodeStarted`/`NodeFinished` handlers and by the State Predictor —
carries as its `state` the serialization of the default-filtered state
object; and default filtering removes exactly the top-level keys
`messages` and `id`, preserving the lookup of every other key. -/
theorem c6_snapshots_exclude_bookkeeping_keys :
    (∀ (state : List (String × JVal)) (k : String),
      dictGet (_filter_state state none) k =
        if k = "messages" ∨ k = "id" then none else dictGet state k) ∧
    (∀ (ex : CopilotKitRunExecution) (nn : String)
        (st : List (String × JVal)),
      (handle_runtime_event (.nodeStarted nn st) ex).1 =
        some (emit_runtime_event (.agentStateMessage
          (agent_state_message ex.thread_id ex.agent_name nn ex.run_id
            true "assistant" (jdump (.obj (_filter_state st none))) true)))) ∧
    (∀ (ex : CopilotKitRunExecution) (nn : String)
        (st : List (String × JVal)),
      (handle_runtime_event (.nodeFinished nn st) ex).1 =
        some (emit_runtime_event (.agentStateMessage
          (agent_state_message ex.thread_id ex.agent_name ex.node_name
            ex.run_id false "assistant"
            (jdump (.obj (_filter_state st none))) true)))) ∧
    (∀ (tid an rid : String) (e : RuntimeEvent)
        (ex ex' : CopilotKitRunExecution) (m : AgentStateMessage),
      predict_state tid an rid e ex = (some m, ex') →
      m.state = jdump (.obj (_filter_state
        (dictMerge ex.state ex'.predicted_state) none))) := by
  refine ⟨filter_state_get, fun ex nn st => rfl, fun ex nn st => rfl,
    fun tid an rid e ex ex' m h => ?_⟩
  cases e <;> simp [predict_state] at h
  case actionExecutionArgs id args =>
    split at h
    · simp at h
    · split at h
      · simp at h
      · split at h
        · injection h with h1 h2
          injection h1 with h1
          subst h1
          subst h2
          rfl
        · simp at h

/-- Witness for C6: on `c6Execution`, the complete-arguments event
`c6Event` produces the snapshot `c6Message`, whose state is the
filtered merge — `messages` and `id` dropped, `y` and the predicted
`x` kept. -/
theorem c6_snapshots_exclude_bookkeeping_keys_witness :
    predict_state "t6" "a6" "r6" c6Event c6Execution =
      (some c6Message, c6Execution') ∧
    c6Message.state = jdump (.obj (_filter_state
      (dictMerge c6Execution.state c6Execution'.predicted_state) none)) :=
  ⟨rfl, c6_snapshots_exclude_bookkeeping_keys.2.2.2 "t6" "a6" "r6" c6Event
    c6Execution c6Execution' c6Message rfl⟩

/-- `String.intercalate.go` distributes over a left factor of its
accumulator. -/
theorem intercalate_go_shift (s : String) :
    ∀ (l : List String) (a b : String),
      String.intercalate.go (a ++ b) s l = a ++ String.intercalate.go b s l := by
  intro l
  induction l with
  | nil => intro a b; rfl
  | cons y ys ih =>
    intro a b
    show String.intercalate.go (a ++ b ++ s ++ y) s ys =
      a ++ String.intercalate.go (b ++ s ++ y) s ys
    rw [String.append_assoc, String.append_assoc, ← String.append_assoc b s y, ih]

/-- Serializing two or more events yields the first event's line
followed by the serialization of the rest. -/
theorem emit_runtime_events_cons (e f : RuntimeEvent) (evs : List RuntimeEvent) :
    emit_runtime_events (e :: f :: evs) =
      emit_runtime_event e ++ emit_runtime_events (f :: evs) := by
  show String.intercalate.go (jdump (eventToJson e)) "\n"
      ((f :: evs).map (fun x => jdump (eventToJson x))) ++ "\n" = _
  rw [List.map_cons, String.intercalate.go, intercalate_go_shift,
    String.append_assoc]
  rfl

/-- Serializing a non-empty sequence concatenates the per-event lines. -/
theorem emit_runtime_events_join (e : RuntimeEvent) (evs : List RuntimeEvent) :
    emit_runtime_events (e :: evs) =
      String.join ((e :: evs).map emit_runtime_event) := by
  induction evs generalizing e with
  | nil =>
    apply String.ext
    simp [emit_runtime_events, emit_runtime_event, String.data_append,
      String.intercalate]
  | cons f fs ih =>
    rw [emit_runtime_events_cons, ih]
    apply String.ext
    simp [String.data_append]

/-- Hex digit characters are never a newline. -/
theorem hexDigitChar_ne_nl (m : Nat) (h : m < 16) : hexDigitChar m ≠ '\n' := by
  interval_cases m <;> decide

/-- `hex4` output never contains a newline. -/
theorem hex4_no_nl (n : Nat) : '\n' ∉ (hex4 n).data := by
  simp only [hex4, List.mem_cons, List.not_mem_nil, or_false]
  push_neg
  refine ⟨?_, ?_, ?_, ?_⟩ <;>
    exact fun h => hexDigitChar_ne_nl _ (Nat.mod_lt _ (by norm_num)) h.symm

/-- `escChar` output never contains a newline: a raw newline is escaped
to the two characters backslash-n, and every other branch emits only
printable characters. -/
theorem escChar_no_nl (c : Char) : '\n' ∉ (escChar c).data := by
  unfold escChar
  split_ifs with h1 h2 h3 h4 h5 h6 h7 h8 h9
  · decide
  · decide
  · decide
  · decide
  · decide
  · decide
  · decide
  · simp only [String.data_append]
    intro hm
    rcases List.mem_append.1 hm with hm | hm
    · revert hm; decide
    · exact hex4_no_nl _ hm
  · simp only [String.data_append]
    intro hm
    rcases List.mem_append.1 hm with hm | hm
    · rcases List.mem_append.1 hm with hm | hm
      · rcases List.mem_append.1 hm with hm | hm
        · revert hm; decide
        · exact hex4_no_nl _ hm
      · revert hm; decide
    · exact hex4_no_nl _ hm
  · show '\n' ∉ (String.singleton c).data
    have : c ≠ '\n' := by
      intro hc
      subst hc
      exact h8 (Or.inl (by decide))
    intro hc
    exact this (List.mem_singleton.1 hc).symm

/-- JSON string literals produced by `jstr` never contain a raw
newline. -/
theorem jstr_no_nl (s : String) : '\n' ∉ (jstr s).data := by
  simp only [jstr, String.data_append, String.data_join]
  intro hm
  rcases List.mem_append.1 hm with hm | hm
  · rcases List.mem_append.1 hm with hm | hm
    · revert hm; decide
    · rw [List.mem_flatten] at hm
      obtain ⟨l, hl, hml⟩ := hm
      rw [List.mem_map] at hl
      obtain ⟨t, ht, rfl⟩ := hl
      rw [List.mem_map] at ht
      obtain ⟨d, hd, rfl⟩ := ht
      exact escChar_no_nl d hml
  · revert hm; decide

/-- Serializing a scalar JSON value never yields a raw newline. -/
theorem jdump_flat_no_nl (v : JVal) (h : flatVal v = true) :
    '\n' ∉ (jdump v).data := by
  cases v with
  | null => decide
  | bool b => cases b <;> decide
  | str s => exact jstr_no_nl s
  | num n => exact Bool.noConfusion h
  | arr l => exact Bool.noConfusion h
  | obj l => exact Bool.noConfusion h

/-- Serializing an object of scalar values never yields a raw newline. -/
theorem jdumpObj_flat_no_nl :
    ∀ (l : List (String × JVal)), (∀ kv ∈ l, flatVal kv.2 = true) →
      '\n' ∉ (jdumpObj l).data := by
  intro l
  induction l with
  | nil => intro _ hm; revert hm; decide
  | cons kv rest ih =>
    obtain ⟨k, v⟩ := kv
    intro h hm
    cases rest with
    | nil =>
      simp only [jdumpObj, String.data_append] at hm
      rcases List.mem_append.1 hm with hm | hm
      · rcases List.mem_append.1 hm with hm | hm
        · exact jstr_no_nl k hm
        · revert hm; decide
      · exact jdump_flat_no_nl v (h (k, v) (by simp)) hm
    | cons kv2 rest2 =>
      simp only [jdumpObj, String.data_append] at hm
      rcases List.mem_append.1 hm with hm | hm
      · rcases List.mem_append.1 hm with hm | hm
        · rcases List.mem_append.1 hm with hm | hm
          · rcases List.mem_append.1 hm with hm | hm
            · exact jstr_no_nl k hm
            · revert hm; decide
          · exact jdump_flat_no_nl v (h (k, v) (by simp)) hm
        · revert hm; decide
      · exact ih (fun x hx => h x (List.mem_cons_of_mem _ hx)) hm

/-- An optional string renders to a scalar JSON value. -/
theorem flatVal_optStr (p : Option String) : flatVal (optStr p) = true := by
  cases p <;> rfl

/-- The serialized line of a protocol event contains no raw newline. -/
theorem protocol_event_line_no_nl (e : RuntimeEvent)
    (h : isProtocolEvent e = true) :
    '\n' ∉ (jdump (eventToJson e)).data := by
  cases e <;> try exact Bool.noConfusion h
  all_goals
    intro hm
    simp only [eventToJson, jdump, String.data_append] at hm
    rcases List.mem_append.1 hm with hm | hm
    · rcases List.mem_append.1 hm with hm | hm
      · revert hm; decide
      · refine jdumpObj_flat_no_nl _ ?_ hm
        intro kv hkv
        fin_cases hkv <;> first | rfl | exact flatVal_optStr _
    · revert hm; decide

/-- C7: for every non-empty sequence of protocol events the serializer
emits exactly one JSON line per event, in input order — the output is
the concatenation of the per-event serializations, each of which is a
newline-free JSON text terminated by a single newline; the `type`
discriminant of every line is the enum's wire string; and serializing
one event equals serializing the singleton sequence. -/
theorem c7_one_json_line_per_event :
    (∀ (e : RuntimeEvent) (evs : List RuntimeEvent),
      emit_runtime_events (e :: evs) =
        String.join ((e :: evs).map emit_runtime_event)) ∧
    (∀ e : RuntimeEvent,
      emit_runtime_event e = jdump (eventToJson e) ++ "\n") ∧
    (∀ e : RuntimeEvent, isProtocolEvent e = true →
      '\n' ∉ (jdump (eventToJson e)).data) ∧
    (∀ e : RuntimeEvent, isProtocolEvent e = true →
      ∃ rest, eventToJson e =
        .obj (("type", .str ((eventType e).value)) :: rest)) ∧
    (∀ e : RuntimeEvent, emit_runtime_event e = emit_runtime_events [e]) := by
  refine ⟨emit_runtime_events_join, fun e => rfl, protocol_event_line_no_nl,
    fun e h => ?_, fun e => rfl⟩
  cases e <;> first | exact Bool.noConfusion h | exact ⟨_, rfl⟩

/-- Witness for C7: the `TextEnd` event on message `m9` is a protocol
event whose serialized line is newline-free and carries the wire
string discriminant. -/
theorem c7_one_json_line_per_event_witness :
    isProtocolEvent (RuntimeEvent.textMessageEnd "m9") = true ∧
    '\n' ∉ (jdump (eventToJson (RuntimeEvent.textMessageEnd "m9"))).data ∧
    ∃ rest, eventToJson (RuntimeEvent.textMessageEnd "m9") =
      .obj (("type", .str ((eventType (RuntimeEvent.textMessageEnd "m9")).value)) :: rest) :=
  ⟨rfl, c7_one_json_line_per_event.2.2.1 (RuntimeEvent.textMessageEnd "m9") rfl,
    c7_one_json_line_per_event.2.2.2.1 (RuntimeEvent.textMessageEnd "m9") rfl⟩

end CopilotKit
